import Mathlib

/-
Shallow embedding of the audio playback subsystem of sim-jjj
(src/src/audio.cpp together with the audio header in src/unnamed/part_000).

Modelling conventions:
* Machine integers: `channels`, `sampleRate`, `bitsPerSample` are C++ `int`,
  modelled as `Int`; `bufferSize` is `uint64_t`, modelled as `Nat`; byte
  buffers are `List Nat` (one entry per byte).  `ma_device_id` is an opaque
  backend token compared only with `ma_device_id_equal`; it is modelled as a
  `Nat` with equality.
* Calls into the native miniaudio backend (`ma_device_init`,
  `ma_resampler_init`, `ma_resampler_set_rate`,
  `ma_resampler_get_expected_output_frame_count`,
  `ma_resampler_process_pcm_frames`, `ma_audio_buffer_init`,
  `ma_sound_init_from_data_source`, `ma_context_get_devices`) are
  environment-determined: their outcomes are inputs (`PlayEnv`) to the
  embedded functions, exactly where the source consults their `ma_result`.
* Side effects are recorded in an ordered event trace: `free(buffer)` calls,
  `delete` of the payload, log lines with their severity, native teardown
  calls, sound registration and start.  C++ exceptions (`throw`) are
  modelled as `Except.error ()`; a normal `return b` is `Except.ok b`.
* Object identity of natively constructed owners (`CDevice`, `CResampler`)
  is modelled with a generation counter `nextGen`: every construction stamps
  the fresh generation and increments the counter, so "the same object was
  kept" is "the generation did not change".
-/

/-- Severity-tagged observable events emitted by the audio subsystem, in
program order.  `freeBuf` is the `free((void*)buffer)` call on the
caller-supplied buffer; `deletePayload` is `delete pPayload`;
`audioBufferUninit` is `ma_audio_buffer_uninit` on a partially constructed
payload; `resampleProcessed` is a call into
`ma_resampler_process_pcm_frames`. -/
inductive Event where
  | freeBuf
  | deletePayload
  | logError
  | logCritical
  | logWarn
  | logDebug
  | audioBufferUninit
  | soundRegistered
  | soundStarted
  | deviceConstructed
  | deviceStarted
  | resamplerConstructed
  | resamplerSetRate
  | resampleProcessed
deriving DecidableEq, Repr

/-- Sample formats of miniaudio (`ma_format`); only the tags used by the
program are modelled. -/
inductive MaFormat where
  | unknown
  | u8
  | s16
  | s24
  | s32
deriving DecidableEq, Repr

/-- Translation of `determineFormat` (audio header): maps bits-per-sample to
the miniaudio format tag, defaulting to `unknown`. -/
def determineFormat (bitsPerSample : Int) : MaFormat :=
  if bitsPerSample = 8 then MaFormat.u8
  else if bitsPerSample = 16 then MaFormat.s16
  else if bitsPerSample = 24 then MaFormat.s24
  else if bitsPerSample = 32 then MaFormat.s32
  else MaFormat.unknown

/-- Translation of `DeviceInfo` (audio header): backend identity, display
name, is-default flag.  The identity is the opaque `ma_device_id`, modelled
as a `Nat`. -/
structure DeviceInfo where
  id : Nat
  name : String
  isDefault : Bool
deriving DecidableEq, Repr

/-- State of a constructed `CDevice`: the device identity it was bound to at
construction, and the construction generation (object identity). -/
structure DeviceState where
  id : Nat
  gen : Nat
deriving DecidableEq, Repr

/-- State of a constructed `CResampler`: the `ma_resampler` configuration
(format, channels, rate pair) and the construction generation (object
identity). -/
structure ResamplerState where
  format : MaFormat
  channels : Nat
  rateIn : Nat
  rateOut : Nat
  gen : Nat
deriving DecidableEq, Repr

/-- Translation of `Audio::SoundPayload` as far as it is observable: the
converted PCM bytes, the frame count the sound was registered with, and
whether `ma_sound_at_end` currently reports the sound finished (an
environment-controlled flag; a freshly started sound has it `false`). -/
structure SoundPayload where
  pcmData : List Nat
  frames : Nat
  atEnd : Bool
deriving DecidableEq, Repr

/-- Mutable state of the `Audio` class (audio header, fields of `Audio`). -/
structure AudioState where
  m_device : Option DeviceState
  m_resampler : Option ResamplerState
  m_selectedDeviceID : Nat
  m_currentDeviceID : Nat
  m_hasCurrentDevice : Bool
  m_lastDevicesList : List DeviceInfo
  sounds : List SoundPayload
  nextGen : Nat
deriving DecidableEq, Repr

/-- Constant `AUDIO_DEFAULT_SAMPLE_RATE` from the audio header. -/
def AUDIO_DEFAULT_SAMPLE_RATE : Nat := 48000

/-- Outcomes of the native backend calls made during one `playAudioData`
call, supplied by the environment.  `enumResult` is the device list produced
by `getDevicesList` (already sorted and stored; `Except.error` means
`ma_context_get_devices` failed and `getDevicesList` threw);
`resampleResult` is the byte output and the actual output frame count of
`ma_resampler_process_pcm_frames`. -/
structure PlayEnv where
  enumResult : Except Unit (List DeviceInfo)
  deviceInitOk : Bool
  resamplerInitOk : Bool
  setRateOk : Bool
  expectedFrames : Except Unit Nat
  resampleResult : Except Unit (List Nat × Nat)
  bufferInitOk : Bool
  soundInitOk : Bool
deriving Repr

/-- Result of one call into the subsystem: the C++ control-flow outcome
(`Except.error ()` = an exception escaped, `Except.ok b` = `return b`), the
state of the `Audio` object afterwards, and the ordered event trace. -/
structure PlayOutcome where
  result : Except Unit Bool
  state : AudioState
  trace : List Event
deriving Repr

/-- Count of `free((void*)buffer)` calls in a trace. -/
def countFree : List Event → Nat
  | [] => 0
  | Event.freeBuf :: t => countFree t + 1
  | _ :: t => countFree t

/-- Count of `ma_resampler_process_pcm_frames` calls in a trace. -/
def countResample : List Event → Nat
  | [] => 0
  | Event.resampleProcessed :: t => countResample t + 1
  | _ :: t => countResample t

/-- Check whether an outcome left `playAudioData` by a C++ exception. -/
def isFatal (o : PlayOutcome) : Bool :=
  match o.result with
  | Except.error _ => true
  | Except.ok _ => false

/-- Translation of `Audio::freeSounds(onlyUnused)`: removes every payload
with `(!onlyUnused || at_end)`, keeps the rest in order, and logs a debug
line when anything was removed.  Registered payloads always hold a non-null
sound handle, so the `sound->sound != nullptr` guard of the source is always
true here. -/
def freeSounds (onlyUnused : Bool) (sounds : List SoundPayload) :
    List SoundPayload × List Event :=
  let kept := sounds.filter (fun snd => onlyUnused && !snd.atEnd)
  (kept, if kept.length < sounds.length then [Event.logDebug] else [])

/-- Translation of `Audio::updateDevice` with the outcome of
`ma_device_init` (inside the `CDevice` constructor) supplied by the
environment.  On a construction failure the constructor logs an error and
throws; the member assignments never happen. -/
def updateDevice (s : AudioState) (deviceInitOk : Bool) :
    Except Unit AudioState × List Event :=
  if s.m_hasCurrentDevice && (s.m_currentDeviceID == s.m_selectedDeviceID) then
    (Except.ok s, [])
  else if deviceInitOk then
    (Except.ok
      { s with
        m_device := some ⟨s.m_selectedDeviceID, s.nextGen⟩
        nextGen := s.nextGen + 1
        m_currentDeviceID := s.m_selectedDeviceID
        m_hasCurrentDevice := true },
      [Event.logDebug, Event.deviceConstructed, Event.deviceStarted])
  else
    (Except.error (), [Event.logDebug, Event.logError])

/-- Check of the reuse condition of `Audio::updateResampler`: a resampler
exists and its stored format and channel count equal the requested ones. -/
def resamplerMatches (o : Option ResamplerState) (format : MaFormat)
    (channels : Nat) : Bool :=
  match o with
  | none => false
  | some r => r.format == format && r.channels == channels

/-- Translation of `Audio::updateResampler` with the outcomes of
`ma_resampler_init` (inside the `CResampler` constructor) and
`ma_resampler_set_rate` supplied by the environment.  A mismatching (or
absent) resampler is replaced by a brand-new construction; a matching one is
left alone when the rates are equal and rate-adjusted in place otherwise; a
rate-adjustment failure logs an error and throws. -/
def updateResampler (s : AudioState) (format : MaFormat)
    (channels rateIn rateOut : Nat) (resamplerInitOk setRateOk : Bool) :
    Except Unit AudioState × List Event :=
  if resamplerMatches s.m_resampler format channels then
    match s.m_resampler with
    | none => (Except.error (), [])
    | some r =>
      if rateIn == rateOut then
        (Except.ok s, [])
      else if setRateOk then
        (Except.ok
          { s with m_resampler := some { r with rateIn := rateIn, rateOut := rateOut } },
          [Event.resamplerSetRate])
      else
        (Except.error (), [Event.logError])
  else if resamplerInitOk then
    (Except.ok
      { s with
        m_resampler := some ⟨format, channels, rateIn, rateOut, s.nextGen⟩
        nextGen := s.nextGen + 1 },
      [Event.resamplerConstructed])
  else
    (Except.error (), [Event.logError])

/-- Translation of `Audio::selectDevice`: an empty last enumeration only
warns; an out-of-range index warns and falls back to index 0; otherwise the
chosen descriptor's identity is recorded as desired.  The call never opens a
device and never fails. -/
def selectDevice (s : AudioState) (deviceIndex : Nat) :
    AudioState × List Event :=
  if s.m_lastDevicesList.isEmpty then
    (s, [Event.logWarn])
  else if s.m_lastDevicesList.length ≤ deviceIndex then
    ({ s with m_selectedDeviceID := (s.m_lastDevicesList.getD 0 ⟨0, "", false⟩).id },
      [Event.logWarn])
  else
    ({ s with m_selectedDeviceID := (s.m_lastDevicesList.getD deviceIndex ⟨0, "", false⟩).id },
      [])

/-- Semantics of `std::vector::resize(n)` on a byte vector: truncate to `n`
bytes or zero-pad up to `n` bytes. -/
def padTo (n : Nat) (l : List Nat) : List Nat :=
  l.take n ++ List.replicate (n - l.length) 0

/-- Translation of the post-conversion stage of `Audio::playAudioData`
(audio.cpp lines 107-141): the input buffer has already been freed (its
`freeBuf` event is part of `tr`).  A zero output frame count discards the
payload and reports success; a failing `ma_audio_buffer_init` logs at
critical severity, deletes the payload and aborts with failure; a failing
`ma_sound_init_from_data_source` logs at critical severity, tears the
already-constructed audio buffer down (`ma_audio_buffer_uninit`), deletes
the payload and aborts with failure; otherwise the payload is registered in
the sound registry and the sound is started. -/
def registerConvertedSound (s : AudioState) (tr : List Event) (env : PlayEnv)
    (pcm : List Nat) (frameCountOut : Nat) : PlayOutcome :=
  if frameCountOut == 0 then
    ⟨Except.ok true, s, tr ++ [Event.deletePayload]⟩
  else if env.bufferInitOk then
    if env.soundInitOk then
      ⟨Except.ok true,
        { s with sounds := s.sounds ++ [⟨pcm, frameCountOut, false⟩] },
        tr ++ [Event.soundRegistered, Event.soundStarted]⟩
    else
      ⟨Except.ok false, s,
        tr ++ [Event.logCritical, Event.audioBufferUninit, Event.deletePayload]⟩
  else
    ⟨Except.ok false, s, tr ++ [Event.logCritical, Event.deletePayload]⟩

/-- Translation of the conversion branch of `Audio::playAudioData`
(audio.cpp lines 88-141), given the estimated output frame count `est`:
either the resampling branch (`sampleRate != AUDIO_DEFAULT_SAMPLE_RATE`),
whose payload is the resampler's byte output inside a buffer sized by the
estimate and then resized to the actual frame count, or the direct
byte-copy branch, whose payload is the input bytes and whose frame count is
the computed input frame count `(bufferSize * 8) / (channels *
bitsPerSample)`; each is followed by the release of the input buffer and
the post-conversion stage. -/
def playConvertWith (s5 : AudioState) (tr : List Event) (env : PlayEnv)
    (channels bitsPerSample sampleRateN bufferSize : Nat) (buf : List Nat)
    (est : Nat) : PlayOutcome :=
  if sampleRateN ≠ AUDIO_DEFAULT_SAMPLE_RATE then
    match env.resampleResult with
    | Except.error _ =>
      ⟨Except.ok false, s5, tr ++ [Event.logError, Event.freeBuf, Event.deletePayload]⟩
    | Except.ok (outBytes, nOut) =>
      registerConvertedSound s5
        (tr ++ [Event.resampleProcessed, Event.freeBuf]) env
        (padTo (nOut * channels * (bitsPerSample / 8))
          (padTo (est * channels * (bitsPerSample / 8)) outBytes))
        nOut
  else
    registerConvertedSound s5 (tr ++ [Event.freeBuf]) env
      (buf.take bufferSize)
      ((bufferSize * 8) / (channels * bitsPerSample))

/-- Conversion stage, continued: the expected output frame count is obtained
from the backend estimator first (audio.cpp lines 78-86); its failure logs
an error, frees the buffer and aborts with failure. -/
def playConvert (s5 : AudioState) (tr : List Event) (env : PlayEnv)
    (channels bitsPerSample sampleRateN bufferSize : Nat) (buf : List Nat) :
    PlayOutcome :=
  match env.expectedFrames with
  | Except.error _ => ⟨Except.ok false, s5, tr ++ [Event.logError, Event.freeBuf]⟩
  | Except.ok est =>
    playConvertWith s5 tr env channels bitsPerSample sampleRateN bufferSize buf est

/-- Translation of `Audio::playAudioData` from the device/resampler update
onward (audio.cpp lines 76-141): `updateDevice` and `updateResampler` may
throw (their constructors or the rate update failing), in which case the
exception escapes `playAudioData` without touching the input buffer;
otherwise conversion proceeds. -/
def playCore (s3 : AudioState) (tr1 : List Event) (env : PlayEnv)
    (fmt : MaFormat) (channels bitsPerSample sampleRateN bufferSize : Nat)
    (buf : List Nat) : PlayOutcome :=
  match updateDevice s3 env.deviceInitOk with
  | (Except.error _, ev) => ⟨Except.error (), s3, tr1 ++ ev⟩
  | (Except.ok s4, ev1) =>
    match updateResampler s4 fmt channels sampleRateN AUDIO_DEFAULT_SAMPLE_RATE
        env.resamplerInitOk env.setRateOk with
    | (Except.error _, ev2) => ⟨Except.error (), s4, tr1 ++ ev1 ++ ev2⟩
    | (Except.ok s5, ev2) =>
      playConvert s5 (tr1 ++ ev1 ++ ev2) env channels bitsPerSample sampleRateN
        bufferSize buf

/-- Opportunistic reclamation step of `Audio::playAudioData` (audio.cpp
line 75, `freeSounds()` with `onlyUnused = true`) followed by the rest of
the pipeline. -/
def startPlayback (s2 : AudioState) (tr0 : List Event) (env : PlayEnv)
    (fmt : MaFormat) (channels bitsPerSample sampleRateN bufferSize : Nat)
    (buf : List Nat) : PlayOutcome :=
  playCore { s2 with sounds := (freeSounds true s2.sounds).1 }
    (tr0 ++ (freeSounds true s2.sounds).2) env fmt channels bitsPerSample
    sampleRateN bufferSize buf

/-- Translation of `Audio::playAudioData` (audio.cpp lines 38-142).  The
caller-supplied buffer is `none` for a null pointer and `some buf` for a
buffer holding the bytes `buf`; validation, the device re-enumeration
(outcome of `getDevicesList` supplied by the environment, including its
update of `m_lastDevicesList`), the fallback to the first enumerated device
when the selected identity is absent, and the playback pipeline follow the
source line by line. -/
def playAudioData (s : AudioState) (env : PlayEnv)
    (channels sampleRate bitsPerSample : Int) (bufferSize : Nat)
    (buffer : Option (List Nat)) : PlayOutcome :=
  match buffer with
  | none => ⟨Except.ok false, s, [Event.logError]⟩
  | some buf =>
    if channels ≤ 0 ∨ bitsPerSample ≤ 0 ∨ sampleRate ≤ 0 then
      ⟨Except.ok false, s, [Event.logError, Event.freeBuf]⟩
    else if determineFormat bitsPerSample = MaFormat.unknown then
      ⟨Except.ok false, s, [Event.logError, Event.freeBuf]⟩
    else if bufferSize = 0 then
      ⟨Except.ok true, s, [Event.freeBuf]⟩
    else
      match env.enumResult with
      | Except.error _ => ⟨Except.error (), s, [Event.logCritical]⟩
      | Except.ok devices =>
        if devices.isEmpty then
          ⟨Except.ok false, { s with m_lastDevicesList := devices },
            [Event.logError, Event.freeBuf]⟩
        else if devices.any (fun d => d.id == s.m_selectedDeviceID) then
          startPlayback { s with m_lastDevicesList := devices } [] env
            (determineFormat bitsPerSample) channels.toNat bitsPerSample.toNat
            sampleRate.toNat bufferSize buf
        else
          startPlayback
            { s with
              m_lastDevicesList := devices
              m_selectedDeviceID := (devices.headD ⟨0, "", false⟩).id }
            [Event.logWarn] env (determineFormat bitsPerSample) channels.toNat
            bitsPerSample.toNat sampleRate.toNat bufferSize buf

/-- Comparator passed to `std::sort` in `Audio::getDevicesList`
(`first.isDefault > second.isDefault` on `bool`). -/
def devCmp (a b : DeviceInfo) : Bool :=
  a.isDefault && !b.isDefault

/-- Contract of the `std::sort` call in `Audio::getDevicesList`: the stored
and returned list is some permutation of the enumerated list that is sorted
with respect to `devCmp` (no element strictly precedes, under the
comparator, an element placed before it).  `std::sort` guarantees nothing
more; in particular it is not a stable sort. -/
def getDevicesListRel (enumerated output : List DeviceInfo) : Prop :=
  output.Perm enumerated ∧ output.Pairwise (fun a b => devCmp b a = false)

/-- Order the specification ascribes to `getDevicesList`: default devices
first, each group keeping its relative enumeration order (a stable
default-first sort). -/
def stableDefaultFirst (l : List DeviceInfo) : List DeviceInfo :=
  l.filter (fun d => d.isDefault) ++ l.filter (fun d => !d.isDefault)

/-- Frame count the conversion branch hands to the post-conversion stage:
the actual output frame count reported by the resampler when resampling
happens, the computed input frame count on the direct-copy path, `none`
when `ma_resampler_process_pcm_frames` fails. -/
def convFrameCount (env : PlayEnv) (channels bitsPerSample sampleRateN bufferSize : Nat) :
    Option Nat :=
  if sampleRateN ≠ AUDIO_DEFAULT_SAMPLE_RATE then
    match env.resampleResult with
    | Except.error _ => none
    | Except.ok (_, nOut) => some nOut
  else some ((bufferSize * 8) / (channels * bitsPerSample))

/-- Freshly constructed `Audio` object after an enumeration that found no
devices: no device open, no resampler, identities zeroed, empty registry. -/
def demoState : AudioState :=
  ⟨none, none, 0, 0, false, [], [], 0⟩

/-- Environment in which every native call succeeds: one default device
with identity 0, estimator answers 1 frame, the resampler produces two
bytes making up 1 frame. -/
def demoEnv : PlayEnv :=
  ⟨Except.ok [⟨0, "default", true⟩], true, true, true, Except.ok 1,
    Except.ok ([9, 9], 1), true, true⟩

/-- Audio object holding a stereo 16-bit resampler converting 44100 Hz to
the working rate (construction generation 0). -/
def resamplerDemoState : AudioState :=
  ⟨none, some ⟨MaFormat.s16, 2, 44100, 48000, 0⟩, 0, 0, false, [], [], 1⟩

/-- Audio object whose most recent enumeration found no devices while a
stale desired identity 7 is still recorded. -/
def staleSelectionState : AudioState :=
  ⟨none, none, 7, 0, false, [], [], 0⟩

/-- Audio object whose most recent enumeration returned two devices, with a
stale desired identity 9 recorded. -/
def twoDeviceState : AudioState :=
  ⟨none, none, 9, 0, false, [⟨5, "left", false⟩, ⟨6, "right", true⟩], [], 0⟩


theorem countFree_append (a b : List Event) :
    countFree (a ++ b) = countFree a + countFree b := by
  induction a with
  | nil => simp [countFree]
  | cons e t ih => cases e <;> simp [countFree, ih] <;> omega

theorem countFree_updateDevice (s : AudioState) (ok : Bool) :
    countFree (updateDevice s ok).2 = 0 := by
  unfold updateDevice
  split
  · rfl
  · split <;> rfl

theorem countFree_updateResampler (s : AudioState) (fmt : MaFormat)
    (ch rIn rOut : Nat) (rOk sOk : Bool) :
    countFree (updateResampler s fmt ch rIn rOut rOk sOk).2 = 0 := by
  unfold updateResampler
  repeat' split
  all_goals rfl

theorem countFree_freeSounds (u : Bool) (l : List SoundPayload) :
    countFree (freeSounds u l).2 = 0 := by
  simp only [freeSounds]
  split <;> rfl

theorem playConvert_spec (s5 : AudioState) (tr : List Event) (env : PlayEnv)
    (ch bps srn size : Nat) (buf : List Nat) :
    isFatal (playConvert s5 tr env ch bps srn size buf) = false ∧
    countFree (playConvert s5 tr env ch bps srn size buf).trace = countFree tr + 1 := by
  unfold playConvert playConvertWith registerConvertedSound
  repeat' split
  all_goals simp [isFatal, countFree_append, countFree]

theorem playCore_count (s3 : AudioState) (tr1 : List Event) (env : PlayEnv)
    (fmt : MaFormat) (ch bps srn size : Nat) (buf : List Nat) :
    countFree (playCore s3 tr1 env fmt ch bps srn size buf).trace
      = countFree tr1
        + cond (isFatal (playCore s3 tr1 env fmt ch bps srn size buf)) 0 1 := by
  unfold playCore
  split
  case _ u ev heq =>
    have h := countFree_updateDevice s3 env.deviceInitOk
    rw [heq] at h
    simp only [isFatal, countFree_append] at h ⊢
    simp [h]
  case _ s4 ev1 heq =>
    have h1 := countFree_updateDevice s3 env.deviceInitOk
    rw [heq] at h1
    simp only at h1
    split
    case _ u ev2 heq2 =>
      have h2 := countFree_updateResampler s4 fmt ch srn AUDIO_DEFAULT_SAMPLE_RATE
        env.resamplerInitOk env.setRateOk
      rw [heq2] at h2
      simp only at h2
      simp [isFatal, countFree_append, h1, h2]
    case _ s5 ev2 heq2 =>
      have h2 := countFree_updateResampler s4 fmt ch srn AUDIO_DEFAULT_SAMPLE_RATE
        env.resamplerInitOk env.setRateOk
      rw [heq2] at h2
      simp only at h2
      obtain ⟨hf, hc⟩ := playConvert_spec s5 (tr1 ++ ev1 ++ ev2) env ch bps srn size buf
      rw [hf, hc]
      simp [countFree_append, h1, h2]

theorem startPlayback_count (s2 : AudioState) (tr0 : List Event) (env : PlayEnv)
    (fmt : MaFormat) (ch bps srn size : Nat) (buf : List Nat) :
    countFree (startPlayback s2 tr0 env fmt ch bps srn size buf).trace
      = countFree tr0
        + cond (isFatal (startPlayback s2 tr0 env fmt ch bps srn size buf)) 0 1 := by
  unfold startPlayback
  rw [playCore_count]
  rw [countFree_append, countFree_freeSounds]
  omega

theorem countResample_append (a b : List Event) :
    countResample (a ++ b) = countResample a + countResample b := by
  induction a with
  | nil => simp [countResample]
  | cons e t ih => cases e <;> simp [countResample, ih] <;> omega

theorem countResample_updateDevice (s : AudioState) (ok : Bool) :
    countResample (updateDevice s ok).2 = 0 := by
  unfold updateDevice
  split
  · rfl
  · split <;> rfl

theorem countResample_updateResampler (s : AudioState) (fmt : MaFormat)
    (ch rIn rOut : Nat) (rOk sOk : Bool) :
    countResample (updateResampler s fmt ch rIn rOut rOk sOk).2 = 0 := by
  unfold updateResampler
  repeat' split
  all_goals rfl

theorem countResample_freeSounds (u : Bool) (l : List SoundPayload) :
    countResample (freeSounds u l).2 = 0 := by
  simp only [freeSounds]
  split <;> rfl

theorem updateDevice_ok (s : AudioState) :
    ∃ s4 ev, updateDevice s true = (Except.ok s4, ev) ∧ s4.sounds = s.sounds := by
  unfold updateDevice
  split
  · exact ⟨s, [], rfl, rfl⟩
  · exact ⟨_, _, rfl, rfl⟩

theorem updateResampler_ok (s : AudioState) (fmt : MaFormat)
    (ch rIn rOut : Nat) (sOk : Bool) (h : rIn = rOut ∨ sOk = true) :
    ∃ s5 ev, updateResampler s fmt ch rIn rOut true sOk = (Except.ok s5, ev)
      ∧ s5.sounds = s.sounds := by
  unfold updateResampler
  split
  · split
    · exact ⟨s, [], by simp_all [resamplerMatches], rfl⟩
    · split
      · exact ⟨_, _, rfl, rfl⟩
      · split
        · exact ⟨_, _, rfl, rfl⟩
        · rcases h with h | h
          · simp_all
          · simp_all
  · split
    · exact ⟨_, _, rfl, rfl⟩
    · simp_all

theorem registerConvertedSound_failure (s : AudioState) (tr : List Event)
    (env : PlayEnv) (pcm : List Nat) (n : Nat) (hn0 : n ≠ 0) :
    (env.bufferInitOk = false →
      registerConvertedSound s tr env pcm n
        = ⟨Except.ok false, s, tr ++ [Event.logCritical, Event.deletePayload]⟩)
    ∧ (env.bufferInitOk = true → env.soundInitOk = false →
      registerConvertedSound s tr env pcm n
        = ⟨Except.ok false, s,
            tr ++ [Event.logCritical, Event.audioBufferUninit, Event.deletePayload]⟩) := by
  have hb : (n == 0) = false := by simpa using hn0
  constructor
  · intro hbuf
    simp [registerConvertedSound, hb, hbuf]
  · intro hbuf hsnd
    simp [registerConvertedSound, hb, hbuf, hsnd]

theorem registerConvertedSound_success (s : AudioState) (tr : List Event)
    (env : PlayEnv) (pcm : List Nat) (n : Nat) (hn0 : n ≠ 0)
    (hb : env.bufferInitOk = true) (hs : env.soundInitOk = true) :
    registerConvertedSound s tr env pcm n
      = ⟨Except.ok true, { s with sounds := s.sounds ++ [⟨pcm, n, false⟩] },
          tr ++ [Event.soundRegistered, Event.soundStarted]⟩ := by
  have hn : (n == 0) = false := by simpa using hn0
  simp [registerConvertedSound, hn, hb, hs]

theorem playConvert_with_est (s5 : AudioState) (tr : List Event) (env : PlayEnv)
    (ch bps srn size : Nat) (buf : List Nat) (est : Nat)
    (hest : env.expectedFrames = Except.ok est) :
    playConvert s5 tr env ch bps srn size buf
      = playConvertWith s5 tr env ch bps srn size buf est := by
  unfold playConvert
  rw [hest]

theorem playConvertWith_copy (s5 : AudioState) (tr : List Event) (env : PlayEnv)
    (ch bps size : Nat) (buf : List Nat) (est : Nat) :
    playConvertWith s5 tr env ch bps AUDIO_DEFAULT_SAMPLE_RATE size buf est
      = registerConvertedSound s5 (tr ++ [Event.freeBuf]) env
          (buf.take size) ((size * 8) / (ch * bps)) := by
  unfold playConvertWith
  simp

theorem playConvertWith_resample (s5 : AudioState) (tr : List Event)
    (env : PlayEnv) (ch bps srn size : Nat) (buf : List Nat) (est : Nat)
    (outBytes : List Nat) (nOut : Nat)
    (hsr : srn ≠ AUDIO_DEFAULT_SAMPLE_RATE)
    (hres : env.resampleResult = Except.ok (outBytes, nOut)) :
    playConvertWith s5 tr env ch bps srn size buf est
      = registerConvertedSound s5 (tr ++ [Event.resampleProcessed, Event.freeBuf]) env
          (padTo (nOut * ch * (bps / 8)) (padTo (est * ch * (bps / 8)) outBytes))
          nOut := by
  unfold playConvertWith
  rw [if_pos hsr, hres]

theorem playConvertWith_failure (s5 : AudioState) (tr : List Event)
    (env : PlayEnv) (ch bps srn size : Nat) (buf : List Nat) (est n : Nat)
    (hn : convFrameCount env ch bps srn size = some n) (hn0 : n ≠ 0) :
    (env.bufferInitOk = false →
      (playConvertWith s5 tr env ch bps srn size buf est).result = Except.ok false
      ∧ (playConvertWith s5 tr env ch bps srn size buf est).state = s5
      ∧ ∃ pre, (playConvertWith s5 tr env ch bps srn size buf est).trace
          = pre ++ [Event.logCritical, Event.deletePayload])
    ∧ (env.bufferInitOk = true → env.soundInitOk = false →
      (playConvertWith s5 tr env ch bps srn size buf est).result = Except.ok false
      ∧ (playConvertWith s5 tr env ch bps srn size buf est).state = s5
      ∧ ∃ pre, (playConvertWith s5 tr env ch bps srn size buf est).trace
          = pre ++ [Event.logCritical, Event.audioBufferUninit, Event.deletePayload]) := by
  by_cases hsr : srn = AUDIO_DEFAULT_SAMPLE_RATE
  · subst hsr
    unfold convFrameCount at hn
    rw [if_neg (by simp)] at hn
    injection hn with hn
    subst hn
    rw [playConvertWith_copy]
    constructor
    · intro hbuf
      rw [(registerConvertedSound_failure _ _ _ _ _ hn0).1 hbuf]
      exact ⟨rfl, rfl, _, rfl⟩
    · intro hbuf hsnd
      rw [(registerConvertedSound_failure _ _ _ _ _ hn0).2 hbuf hsnd]
      exact ⟨rfl, rfl, _, rfl⟩
  · unfold convFrameCount at hn
    rw [if_pos hsr] at hn
    cases hres : env.resampleResult with
    | error u => rw [hres] at hn; simp at hn
    | ok p =>
      obtain ⟨bs, nOut⟩ := p
      rw [hres] at hn
      simp only at hn
      injection hn with hn
      subst hn
      rw [playConvertWith_resample s5 tr env ch bps srn size buf est bs nOut hsr hres]
      constructor
      · intro hbuf
        rw [(registerConvertedSound_failure _ _ _ _ _ hn0).1 hbuf]
        exact ⟨rfl, rfl, _, rfl⟩
      · intro hbuf hsnd
        rw [(registerConvertedSound_failure _ _ _ _ _ hn0).2 hbuf hsnd]
        exact ⟨rfl, rfl, _, rfl⟩

theorem startPlayback_failure (s2 : AudioState) (tr0 : List Event)
    (env : PlayEnv) (fmt : MaFormat) (ch bps srn size : Nat) (buf : List Nat)
    (est n : Nat)
    (hdi : env.deviceInitOk = true) (hri : env.resamplerInitOk = true)
    (hs : srn = AUDIO_DEFAULT_SAMPLE_RATE ∨ env.setRateOk = true)
    (hest : env.expectedFrames = Except.ok est)
    (hn : convFrameCount env ch bps srn size = some n) (hn0 : n ≠ 0) :
    (env.bufferInitOk = false →
      (startPlayback s2 tr0 env fmt ch bps srn size buf).result = Except.ok false
      ∧ (startPlayback s2 tr0 env fmt ch bps srn size buf).state.sounds
          = (freeSounds true s2.sounds).1
      ∧ ∃ pre, (startPlayback s2 tr0 env fmt ch bps srn size buf).trace
          = pre ++ [Event.logCritical, Event.deletePayload])
    ∧ (env.bufferInitOk = true → env.soundInitOk = false →
      (startPlayback s2 tr0 env fmt ch bps srn size buf).result = Except.ok false
      ∧ (startPlayback s2 tr0 env fmt ch bps srn size buf).state.sounds
          = (freeSounds true s2.sounds).1
      ∧ ∃ pre, (startPlayback s2 tr0 env fmt ch bps srn size buf).trace
          = pre ++ [Event.logCritical, Event.audioBufferUninit, Event.deletePayload]) := by
  obtain ⟨s4, ev1, hud, hs4⟩ :=
    updateDevice_ok { s2 with sounds := (freeSounds true s2.sounds).1 }
  obtain ⟨s5, ev2, hur, hs5⟩ :=
    updateResampler_ok s4 fmt ch srn AUDIO_DEFAULT_SAMPLE_RATE env.setRateOk hs
  have hplay : startPlayback s2 tr0 env fmt ch bps srn size buf
      = playConvertWith s5 (tr0 ++ (freeSounds true s2.sounds).2 ++ ev1 ++ ev2)
          env ch bps srn size buf est := by
    simp only [startPlayback, playCore, playConvert, hdi, hud, hri, hur, hest]
  rw [hplay]
  have hsounds : s5.sounds = (freeSounds true s2.sounds).1 := by
    rw [hs5, hs4]
  obtain ⟨h1, h2⟩ := playConvertWith_failure s5
    (tr0 ++ (freeSounds true s2.sounds).2 ++ ev1 ++ ev2) env ch bps srn size buf
    est n hn hn0
  constructor
  · intro hbuf
    obtain ⟨hr, hst, pre, htr⟩ := h1 hbuf
    exact ⟨hr, by rw [hst, hsounds], pre, htr⟩
  · intro hbuf hsnd
    obtain ⟨hr, hst, pre, htr⟩ := h2 hbuf hsnd
    exact ⟨hr, by rw [hst, hsounds], pre, htr⟩

/-- Claim C2.  Once `playAudioData` reaches the post-conversion stage with a
non-zero converted frame count, a native construction failure there is
treated as fatal in the sense of the specification's error taxonomy (the
operation is aborted with a failure return after a critical-severity log,
unlike the error-severity logs of the recoverable validation failures), and
the partially-constructed resources are torn down in reverse construction
order before that aborting return: when `ma_audio_buffer_init` fails,
nothing was natively constructed yet, so the trace ends with the critical
log and the payload delete alone (no `ma_audio_buffer_uninit`); when
`ma_sound_init_from_data_source` fails, the already-constructed audio
buffer — the only natively constructed resource, the sound itself having
failed to construct — is uninitialized before the payload delete.  In both
cases no sound is registered: the registry holds exactly the survivors of
the opportunistic reclamation. -/
theorem playAudioData_construction_failure
    (s : AudioState) (env : PlayEnv) (channels sampleRate bitsPerSample : Int)
    (bufferSize : Nat) (buf : List Nat) (devices : List DeviceInfo) (est n : Nat)
    (hch : 0 < channels) (hsr : 0 < sampleRate) (hbps : 0 < bitsPerSample)
    (hfmt : determineFormat bitsPerSample ≠ MaFormat.unknown)
    (hsz : bufferSize ≠ 0)
    (henum : env.enumResult = Except.ok devices)
    (hdev : devices.isEmpty = false)
    (hdi : env.deviceInitOk = true) (hri : env.resamplerInitOk = true)
    (hsrok : env.setRateOk = true)
    (hest : env.expectedFrames = Except.ok est)
    (hn : convFrameCount env channels.toNat bitsPerSample.toNat sampleRate.toNat
        bufferSize = some n)
    (hn0 : n ≠ 0) :
    (env.bufferInitOk = false →
      (playAudioData s env channels sampleRate bitsPerSample bufferSize
          (some buf)).result = Except.ok false
      ∧ (playAudioData s env channels sampleRate bitsPerSample bufferSize
          (some buf)).state.sounds = (freeSounds true s.sounds).1
      ∧ ∃ pre, (playAudioData s env channels sampleRate bitsPerSample bufferSize
          (some buf)).trace = pre ++ [Event.logCritical, Event.deletePayload])
    ∧ (env.bufferInitOk = true → env.soundInitOk = false →
      (playAudioData s env channels sampleRate bitsPerSample bufferSize
          (some buf)).result = Except.ok false
      ∧ (playAudioData s env channels sampleRate bitsPerSample bufferSize
          (some buf)).state.sounds = (freeSounds true s.sounds).1
      ∧ ∃ pre, (playAudioData s env channels sampleRate bitsPerSample bufferSize
          (some buf)).trace
          = pre ++ [Event.logCritical, Event.audioBufferUninit, Event.deletePayload]) := by
  have hc : ¬(channels ≤ 0 ∨ bitsPerSample ≤ 0 ∨ sampleRate ≤ 0) := by
    push_neg
    exact ⟨hch, hbps, hsr⟩
  have main : ∀ s2 tr0, s2.sounds = s.sounds →
      playAudioData s env channels sampleRate bitsPerSample bufferSize (some buf)
        = startPlayback s2 tr0 env (determineFormat bitsPerSample) channels.toNat
            bitsPerSample.toNat sampleRate.toNat bufferSize buf →
      (env.bufferInitOk = false →
        (playAudioData s env channels sampleRate bitsPerSample bufferSize
            (some buf)).result = Except.ok false
        ∧ (playAudioData s env channels sampleRate bitsPerSample bufferSize
            (some buf)).state.sounds = (freeSounds true s.sounds).1
        ∧ ∃ pre, (playAudioData s env channels sampleRate bitsPerSample bufferSize
            (some buf)).trace = pre ++ [Event.logCritical, Event.deletePayload])
      ∧ (env.bufferInitOk = true → env.soundInitOk = false →
        (playAudioData s env channels sampleRate bitsPerSample bufferSize
            (some buf)).result = Except.ok false
        ∧ (playAudioData s env channels sampleRate bitsPerSample bufferSize
            (some buf)).state.sounds = (freeSounds true s.sounds).1
        ∧ ∃ pre, (playAudioData s env channels sampleRate bitsPerSample bufferSize
            (some buf)).trace
            = pre ++ [Event.logCritical, Event.audioBufferUninit, Event.deletePayload]) := by
    intro s2 tr0 hss hkey
    rw [hkey]
    obtain ⟨h1, h2⟩ := startPlayback_failure s2 tr0 env (determineFormat bitsPerSample)
      channels.toNat bitsPerSample.toNat sampleRate.toNat bufferSize buf est n hdi hri
      (Or.inr hsrok) hest hn hn0
    constructor
    · intro hbuf
      obtain ⟨hr, hst, pre, htr⟩ := h1 hbuf
      exact ⟨hr, by rw [hst, hss], pre, htr⟩
    · intro hbuf hsnd
      obtain ⟨hr, hst, pre, htr⟩ := h2 hbuf hsnd
      exact ⟨hr, by rw [hst, hss], pre, htr⟩
  cases hany : devices.any (fun d => d.id == s.m_selectedDeviceID) with
  | true =>
    refine main { s with m_lastDevicesList := devices } [] rfl ?_
    simp [playAudioData, hc, hfmt, hsz, henum, hdev, hany]
  | false =>
    refine main
      { s with
        m_lastDevicesList := devices
        m_selectedDeviceID := (devices.headD ⟨0, "", false⟩).id }
      [Event.logWarn] rfl ?_
    simp [playAudioData, hc, hfmt, hsz, henum, hdev, hany]

theorem startPlayback_copy_success (s2 : AudioState) (tr0 : List Event)
    (env : PlayEnv) (fmt : MaFormat) (ch bps size : Nat) (buf : List Nat)
    (est : Nat)
    (hdi : env.deviceInitOk = true) (hri : env.resamplerInitOk = true)
    (hest : env.expectedFrames = Except.ok est)
    (hb : env.bufferInitOk = true) (hsnd : env.soundInitOk = true)
    (hn0 : (size * 8) / (ch * bps) ≠ 0) :
    (startPlayback s2 tr0 env fmt ch bps AUDIO_DEFAULT_SAMPLE_RATE size buf).result
        = Except.ok true
    ∧ (startPlayback s2 tr0 env fmt ch bps AUDIO_DEFAULT_SAMPLE_RATE size buf).state.sounds
        = (freeSounds true s2.sounds).1
            ++ [⟨buf.take size, (size * 8) / (ch * bps), false⟩]
    ∧ countResample (startPlayback s2 tr0 env fmt ch bps AUDIO_DEFAULT_SAMPLE_RATE
        size buf).trace = countResample tr0 := by
  obtain ⟨s4, ev1, hud, hs4⟩ :=
    updateDevice_ok { s2 with sounds := (freeSounds true s2.sounds).1 }
  obtain ⟨s5, ev2, hur, hs5⟩ :=
    updateResampler_ok s4 fmt ch AUDIO_DEFAULT_SAMPLE_RATE AUDIO_DEFAULT_SAMPLE_RATE
      env.setRateOk (Or.inl rfl)
  have hplay : startPlayback s2 tr0 env fmt ch bps AUDIO_DEFAULT_SAMPLE_RATE size buf
      = playConvertWith s5 (tr0 ++ (freeSounds true s2.sounds).2 ++ ev1 ++ ev2)
          env ch bps AUDIO_DEFAULT_SAMPLE_RATE size buf est := by
    simp only [startPlayback, playCore, playConvert, hdi, hud, hri, hur, hest]
  have hev1 : countResample ev1 = 0 := by
    have h := countResample_updateDevice
      { s2 with sounds := (freeSounds true s2.sounds).1 } true
    rw [hud] at h
    exact h
  have hev2 : countResample ev2 = 0 := by
    have h := countResample_updateResampler s4 fmt ch AUDIO_DEFAULT_SAMPLE_RATE
      AUDIO_DEFAULT_SAMPLE_RATE true env.setRateOk
    rw [hur] at h
    exact h
  rw [hplay, playConvertWith_copy,
    registerConvertedSound_success _ _ _ _ _ hn0 hb hsnd]
  refine ⟨rfl, ?_, ?_⟩
  · simp only
    rw [hs5, hs4]
  · simp only
    simp [countResample_append, hev1, hev2, countResample_freeSounds, countResample]

/-- Claim C8.  When the input sample rate equals the fixed working rate
(48000 Hz) and the call succeeds, `playAudioData` bypasses resampling
(`ma_resampler_process_pcm_frames` is never called: the trace contains no
resample event) and byte-copies the input directly: the registered payload's
PCM bytes are exactly the first `bufferSize` bytes of the input buffer, and
its frame count is the computed input frame count
`(bufferSize * 8) / (channels * bitsPerSample)`. -/
theorem playAudioData_working_rate_bypasses_resampler
    (s : AudioState) (env : PlayEnv) (channels bitsPerSample : Int)
    (bufferSize : Nat) (buf : List Nat) (devices : List DeviceInfo) (est : Nat)
    (hch : 0 < channels) (hbps : 0 < bitsPerSample)
    (hfmt : determineFormat bitsPerSample ≠ MaFormat.unknown)
    (hsz : bufferSize ≠ 0)
    (henum : env.enumResult = Except.ok devices)
    (hdev : devices.isEmpty = false)
    (hdi : env.deviceInitOk = true) (hri : env.resamplerInitOk = true)
    (hest : env.expectedFrames = Except.ok est)
    (hb : env.bufferInitOk = true) (hsnd : env.soundInitOk = true)
    (hn0 : (bufferSize * 8) / (channels.toNat * bitsPerSample.toNat) ≠ 0) :
    (playAudioData s env channels 48000 bitsPerSample bufferSize (some buf)).result
        = Except.ok true
    ∧ (playAudioData s env channels 48000 bitsPerSample bufferSize
        (some buf)).state.sounds
        = (freeSounds true s.sounds).1
            ++ [⟨buf.take bufferSize,
                 (bufferSize * 8) / (channels.toNat * bitsPerSample.toNat), false⟩]
    ∧ countResample (playAudioData s env channels 48000 bitsPerSample bufferSize
        (some buf)).trace = 0 := by
  have hc1 : ¬channels ≤ 0 := by omega
  have hc2 : ¬bitsPerSample ≤ 0 := by omega
  have main : ∀ s2 tr0, s2.sounds = s.sounds → countResample tr0 = 0 →
      playAudioData s env channels 48000 bitsPerSample bufferSize (some buf)
        = startPlayback s2 tr0 env (determineFormat bitsPerSample) channels.toNat
            bitsPerSample.toNat AUDIO_DEFAULT_SAMPLE_RATE bufferSize buf →
      (playAudioData s env channels 48000 bitsPerSample bufferSize (some buf)).result
          = Except.ok true
      ∧ (playAudioData s env channels 48000 bitsPerSample bufferSize
          (some buf)).state.sounds
          = (freeSounds true s.sounds).1
              ++ [⟨buf.take bufferSize,
                   (bufferSize * 8) / (channels.toNat * bitsPerSample.toNat), false⟩]
      ∧ countResample (playAudioData s env channels 48000 bitsPerSample bufferSize
          (some buf)).trace = 0 := by
    intro s2 tr0 hss htr0 hkey
    rw [hkey]
    obtain ⟨h1, h2, h3⟩ := startPlayback_copy_success s2 tr0 env
      (determineFormat bitsPerSample) channels.toNat bitsPerSample.toNat bufferSize
      buf est hdi hri hest hb hsnd hn0
    refine ⟨h1, ?_, ?_⟩
    · rw [h2, hss]
    · rw [h3, htr0]
  cases hany : devices.any (fun d => d.id == s.m_selectedDeviceID) with
  | true =>
    refine main { s with m_lastDevicesList := devices } [] rfl rfl ?_
    simp [playAudioData, hc1, hc2, hfmt, hsz, henum, hdev, hany, AUDIO_DEFAULT_SAMPLE_RATE]
  | false =>
    refine main
      { s with
        m_lastDevicesList := devices
        m_selectedDeviceID := (devices.headD ⟨0, "", false⟩).id }
      [Event.logWarn] rfl rfl ?_
    simp [playAudioData, hc1, hc2, hfmt, hsz, henum, hdev, hany, AUDIO_DEFAULT_SAMPLE_RATE]

/-- Claim C1 (amended).  With a non-null buffer, `playAudioData` releases the
caller-supplied buffer exactly once on every normally-returning exit path
(success and boolean-failure paths, including all validation failures, the
conversion failure and the post-conversion construction failures), and zero
times on the exit paths that leave by a C++ exception (device enumeration,
device construction, resampler construction or rate-update failure); with a
null buffer it reports failure and performs no release.  The first conjunct
states the release count as a function of whether the call left by an
exception; the second is the null-buffer case. -/
theorem playAudioData_buffer_release (s : AudioState) (env : PlayEnv)
    (channels sampleRate bitsPerSample : Int) (bufferSize : Nat) :
    (∀ buf : List Nat,
      countFree (playAudioData s env channels sampleRate bitsPerSample
          bufferSize (some buf)).trace
        = cond (isFatal (playAudioData s env channels sampleRate bitsPerSample
            bufferSize (some buf))) 0 1)
    ∧ playAudioData s env channels sampleRate bitsPerSample bufferSize none
        = ⟨Except.ok false, s, [Event.logError]⟩ := by
  constructor
  · intro buf
    simp only [playAudioData]
    split
    · rfl
    · split
      · rfl
      · split
        · rfl
        · split
          · rfl
          · split
            · rfl
            · split
              · rw [startPlayback_count]
                simp [countFree]
              · rw [startPlayback_count]
                simp [countFree]
  · rfl

/-- Claim C1, counterexample to the claim as stated.  A construction failure
inside `updateDevice` (the `CDevice` constructor throwing because
`ma_device_init` failed) is an exit path of `playAudioData` on which the
caller-supplied non-null buffer is released zero times, not exactly once:
the exception propagates past the `free` call.  Inputs: a fresh `Audio`
object, one available device, valid mono 16-bit metadata, a 2-byte buffer,
and a backend whose `ma_device_init` fails. -/
theorem playAudioData_construction_throw_leak :
    (playAudioData demoState { demoEnv with deviceInitOk := false } 1 48000 16 2
        (some [1, 2])).result = Except.error ()
    ∧ countFree (playAudioData demoState { demoEnv with deviceInitOk := false }
        1 48000 16 2 (some [1, 2])).trace = 0 :=
  ⟨rfl, rfl⟩

/-- Claim C5.  `determineFormat` maps the supported bit depths 8, 16, 24 and
32 to the format tags `u8`, `s16`, `s24` and `s32` respectively, maps every
other value to `unknown`, and `playAudioData` rejects (returns failure for)
any positive bit depth mapping to `unknown`, releasing the buffer exactly
once and leaving the state untouched. -/
theorem determineFormat_mapping_and_reject :
    (determineFormat 8 = MaFormat.u8 ∧ determineFormat 16 = MaFormat.s16
      ∧ determineFormat 24 = MaFormat.s24 ∧ determineFormat 32 = MaFormat.s32)
    ∧ (∀ b : Int, b ≠ 8 → b ≠ 16 → b ≠ 24 → b ≠ 32 →
        determineFormat b = MaFormat.unknown)
    ∧ (∀ (s : AudioState) (env : PlayEnv) (channels sampleRate b : Int)
        (bufferSize : Nat) (buf : List Nat),
        0 < channels → 0 < sampleRate → 0 < b →
        determineFormat b = MaFormat.unknown →
        playAudioData s env channels sampleRate b bufferSize (some buf)
          = ⟨Except.ok false, s, [Event.logError, Event.freeBuf]⟩) := by
  refine ⟨⟨by decide, by decide, by decide, by decide⟩, ?_, ?_⟩
  · intro b h8 h16 h24 h32
    simp [determineFormat, h8, h16, h24, h32]
  · intro s env channels sampleRate b bufferSize buf hch hsr hb hfmt
    have hc1 : ¬channels ≤ 0 := by omega
    have hc2 : ¬b ≤ 0 := by omega
    have hc3 : ¬sampleRate ≤ 0 := by omega
    simp [playAudioData, hc1, hc2, hc3, hfmt]

/-- Claim C5, witness: bit depth 10 maps to `unknown` and is rejected with
the buffer released once. -/
theorem determineFormat_mapping_and_reject_witness :
    playAudioData demoState demoEnv 1 44100 10 4 (some [0, 0, 0, 0])
      = ⟨Except.ok false, demoState, [Event.logError, Event.freeBuf]⟩ :=
  determineFormat_mapping_and_reject.2.2 demoState demoEnv 1 44100 10 4
    [0, 0, 0, 0] (by decide) (by decide) (by decide) (by decide)

/-- Claim C6.  With a non-null buffer, positive channels and sample rate and
a supported bit depth, a zero byte length makes `playAudioData` release the
buffer, report success and perform no playback: the full outcome is exactly
the unchanged state with a trace consisting of the single release (no sound
registered, no sound started, no device or resampler touched). -/
theorem playAudioData_zero_length_success (s : AudioState) (env : PlayEnv)
    (channels sampleRate bitsPerSample : Int) (buf : List Nat)
    (hch : 0 < channels) (hsr : 0 < sampleRate)
    (hbits : bitsPerSample ∈ ([8, 16, 24, 32] : List Int)) :
    playAudioData s env channels sampleRate bitsPerSample 0 (some buf)
      = ⟨Except.ok true, s, [Event.freeBuf]⟩ := by
  have hbits' : bitsPerSample = 8 ∨ bitsPerSample = 16 ∨ bitsPerSample = 24
      ∨ bitsPerSample = 32 := by simpa using hbits
  have hbps : 0 < bitsPerSample := by omega
  have hfmt : determineFormat bitsPerSample ≠ MaFormat.unknown := by
    rcases hbits' with rfl | rfl | rfl | rfl <;> decide
  have hc1 : ¬channels ≤ 0 := by omega
  have hc2 : ¬bitsPerSample ≤ 0 := by omega
  have hc3 : ¬sampleRate ≤ 0 := by omega
  simp [playAudioData, hc1, hc2, hc3, hfmt]

/-- Claim C6, witness: a zero-length stereo 16-bit buffer at 22050 Hz is
released and reported as success with no playback. -/
theorem playAudioData_zero_length_success_witness :
    playAudioData demoState demoEnv 2 22050 16 0 (some [])
      = ⟨Except.ok true, demoState, [Event.freeBuf]⟩ :=
  playAudioData_zero_length_success demoState demoEnv 2 22050 16 []
    (by decide) (by decide) (by decide)

/-- Claim C10.  When the re-enumeration inside `playAudioData` yields an
empty device list (and the input passed validation), the call releases the
buffer exactly once and returns a boolean failure with an error-severity log
(not an exception, not a critical log): the full outcome shows the single
release, and a state in which only the cached enumeration
`m_lastDevicesList` changed while the device, the resampler and the sound
registry are untouched. -/
theorem playAudioData_no_devices_recoverable (s : AudioState) (env : PlayEnv)
    (channels sampleRate bitsPerSample : Int) (bufferSize : Nat) (buf : List Nat)
    (hch : 0 < channels) (hsr : 0 < sampleRate) (hbps : 0 < bitsPerSample)
    (hfmt : determineFormat bitsPerSample ≠ MaFormat.unknown)
    (hsz : bufferSize ≠ 0)
    (henum : env.enumResult = Except.ok []) :
    playAudioData s env channels sampleRate bitsPerSample bufferSize (some buf)
      = ⟨Except.ok false, { s with m_lastDevicesList := [] },
          [Event.logError, Event.freeBuf]⟩ := by
  have hc1 : ¬channels ≤ 0 := by omega
  have hc2 : ¬bitsPerSample ≤ 0 := by omega
  have hc3 : ¬sampleRate ≤ 0 := by omega
  simp [playAudioData, hc1, hc2, hc3, hfmt, hsz, henum]

/-- Claim C10, witness: a valid 2-byte mono 16-bit request against an
environment whose enumeration finds no devices. -/
theorem playAudioData_no_devices_recoverable_witness :
    playAudioData demoState { demoEnv with enumResult := Except.ok [] }
        1 48000 16 2 (some [1, 2])
      = ⟨Except.ok false, { demoState with m_lastDevicesList := [] },
          [Event.logError, Event.freeBuf]⟩ :=
  playAudioData_no_devices_recoverable demoState
    { demoEnv with enumResult := Except.ok [] } 1 48000 16 2 [1, 2]
    (by decide) (by decide) (by decide) (by decide) (by decide) rfl

/-- Claim C3.  Decision policy of `updateResampler`: (1) a call finding a
resampler with the same sample format and channel count but a different
rate pair adjusts the existing object's rates in place — the construction
generation `r.gen` is preserved, so the object is not reconstructed; (2)
when no resampler exists or the format or channel count differs, a
brand-new resampler stamped with the fresh generation replaces (discards)
the old one; (3) with a matching resampler and equal input and output
rates the call is a complete no-op; (4) after any successful call the
stored resampler matches the requested format and channel count, so the
next call with the same format and channels falls into case (1) or (3). -/
theorem updateResampler_reuse_policy (s : AudioState) (fmt : MaFormat)
    (ch rIn rOut : Nat) (rOk sOk : Bool) :
    (∀ r, s.m_resampler = some r → r.format = fmt → r.channels = ch →
      rIn ≠ rOut → sOk = true →
      updateResampler s fmt ch rIn rOut rOk sOk
        = (Except.ok { s with
              m_resampler := some { r with rateIn := rIn, rateOut := rOut } },
            [Event.resamplerSetRate]))
    ∧ (resamplerMatches s.m_resampler fmt ch = false → rOk = true →
      updateResampler s fmt ch rIn rOut rOk sOk
        = (Except.ok { s with
              m_resampler := some ⟨fmt, ch, rIn, rOut, s.nextGen⟩
              nextGen := s.nextGen + 1 },
            [Event.resamplerConstructed]))
    ∧ (∀ r, s.m_resampler = some r → r.format = fmt → r.channels = ch →
      rIn = rOut →
      updateResampler s fmt ch rIn rOut rOk sOk = (Except.ok s, []))
    ∧ (∀ s' ev, updateResampler s fmt ch rIn rOut rOk sOk = (Except.ok s', ev) →
      ∃ r, s'.m_resampler = some r ∧ r.format = fmt ∧ r.channels = ch) := by
  have case_adjust : ∀ r, s.m_resampler = some r → r.format = fmt →
      r.channels = ch → (rIn == rOut) = false → sOk = true →
      updateResampler s fmt ch rIn rOut rOk sOk
        = (Except.ok { s with
              m_resampler := some { r with rateIn := rIn, rateOut := rOut } },
            [Event.resamplerSetRate]) := by
    intro r hr hf hc hbeq hsOk
    have hm : resamplerMatches (some r) fmt ch = true := by
      simp [resamplerMatches, hf, hc]
    simp [updateResampler, hr, hm, hbeq, hsOk]
  have case_adjust_fail : ∀ r, s.m_resampler = some r → r.format = fmt →
      r.channels = ch → (rIn == rOut) = false → sOk = false →
      updateResampler s fmt ch rIn rOut rOk sOk
        = (Except.error (), [Event.logError]) := by
    intro r hr hf hc hbeq hsOk
    have hm : resamplerMatches (some r) fmt ch = true := by
      simp [resamplerMatches, hf, hc]
    simp [updateResampler, hr, hm, hbeq, hsOk]
  have case_noop : ∀ r, s.m_resampler = some r → r.format = fmt →
      r.channels = ch → (rIn == rOut) = true →
      updateResampler s fmt ch rIn rOut rOk sOk = (Except.ok s, []) := by
    intro r hr hf hc hbeq
    have hm : resamplerMatches (some r) fmt ch = true := by
      simp [resamplerMatches, hf, hc]
    simp [updateResampler, hr, hm, hbeq]
  have case_construct : resamplerMatches s.m_resampler fmt ch = false →
      rOk = true →
      updateResampler s fmt ch rIn rOut rOk sOk
        = (Except.ok { s with
              m_resampler := some ⟨fmt, ch, rIn, rOut, s.nextGen⟩
              nextGen := s.nextGen + 1 },
            [Event.resamplerConstructed]) := by
    intro hm hrOk
    simp [updateResampler, hm, hrOk]
  have case_construct_fail : resamplerMatches s.m_resampler fmt ch = false →
      rOk = false →
      updateResampler s fmt ch rIn rOut rOk sOk
        = (Except.error (), [Event.logError]) := by
    intro hm hrOk
    simp [updateResampler, hm, hrOk]
  refine ⟨?_, case_construct, ?_, ?_⟩
  · intro r hr hf hc hne hsOk
    exact case_adjust r hr hf hc (by simpa using hne) hsOk
  · intro r hr hf hc heq
    exact case_noop r hr hf hc (by simpa using heq)
  · intro s' ev h
    by_cases hm : resamplerMatches s.m_resampler fmt ch = true
    · cases hrs : s.m_resampler with
      | none => rw [hrs] at hm; simp [resamplerMatches] at hm
      | some r =>
        rw [hrs] at hm
        simp only [resamplerMatches, Bool.and_eq_true, beq_iff_eq] at hm
        obtain ⟨hf, hc⟩ := hm
        cases hbeq : (rIn == rOut) with
        | true =>
          rw [case_noop r hrs hf hc hbeq] at h
          simp only [Prod.mk.injEq, Except.ok.injEq] at h
          obtain ⟨h1, h2⟩ := h
          subst h1
          exact ⟨r, hrs, hf, hc⟩
        | false =>
          cases hsOk : sOk with
          | true =>
            rw [case_adjust r hrs hf hc hbeq hsOk] at h
            simp only [Prod.mk.injEq, Except.ok.injEq] at h
            obtain ⟨h1, h2⟩ := h
            subst h1
            exact ⟨{ r with rateIn := rIn, rateOut := rOut }, rfl, hf, hc⟩
          | false =>
            rw [case_adjust_fail r hrs hf hc hbeq hsOk] at h
            simp at h
    · rw [Bool.not_eq_true] at hm
      cases hrOk : rOk with
      | true =>
        rw [case_construct hm hrOk] at h
        simp only [Prod.mk.injEq, Except.ok.injEq] at h
        obtain ⟨h1, h2⟩ := h
        subst h1
        exact ⟨⟨fmt, ch, rIn, rOut, s.nextGen⟩, rfl, rfl, rfl⟩
      | false =>
        rw [case_construct_fail hm hrOk] at h
        simp at h

/-- Claim C3, witness: a stereo 16-bit resampler at 44100 to 48000 Hz is
rate-adjusted in place (generation 0 kept) by a call for 22050 to
48000 Hz. -/
theorem updateResampler_reuse_policy_witness :
    updateResampler resamplerDemoState MaFormat.s16 2 22050 48000 true true
      = (Except.ok { resamplerDemoState with
            m_resampler := some ⟨MaFormat.s16, 2, 22050, 48000, 0⟩ },
          [Event.resamplerSetRate]) :=
  (updateResampler_reuse_policy resamplerDemoState MaFormat.s16 2 22050 48000
      true true).1 ⟨MaFormat.s16, 2, 44100, 48000, 0⟩ rfl rfl rfl
    (by decide) rfl

/-- Claim C7.  `updateDevice` is idempotent in the sense of the lazy-reopen
contract: (1) when a device is already open and the desired identity equals
the currently-open identity, the call is a complete no-op (state unchanged,
no construction, no start); (2) otherwise a brand-new device bound to the
desired identity (stamped with the fresh construction generation) is
constructed and started, replacing the previous one, and the current
identity is updated. -/
theorem updateDevice_lazy_reopen (s : AudioState) (ok : Bool) :
    (s.m_hasCurrentDevice = true → s.m_currentDeviceID = s.m_selectedDeviceID →
      updateDevice s ok = (Except.ok s, []))
    ∧ (s.m_hasCurrentDevice = false ∨ s.m_currentDeviceID ≠ s.m_selectedDeviceID →
      updateDevice s true
        = (Except.ok { s with
              m_device := some ⟨s.m_selectedDeviceID, s.nextGen⟩
              nextGen := s.nextGen + 1
              m_currentDeviceID := s.m_selectedDeviceID
              m_hasCurrentDevice := true },
            [Event.logDebug, Event.deviceConstructed, Event.deviceStarted])) := by
  constructor
  · intro h1 h2
    simp [updateDevice, h1, h2]
  · intro h
    have hcond : (s.m_hasCurrentDevice
        && (s.m_currentDeviceID == s.m_selectedDeviceID)) = false := by
      rcases h with h | h <;> simp [h]
    simp [updateDevice, hcond]

/-- Claim C7, witness: a fresh Audio object with no open device constructs
and starts a brand-new device bound to the desired identity. -/
theorem updateDevice_lazy_reopen_witness :
    updateDevice demoState true
      = (Except.ok { demoState with
            m_device := some ⟨0, 0⟩
            nextGen := 1
            m_currentDeviceID := 0
            m_hasCurrentDevice := true },
          [Event.logDebug, Event.deviceConstructed, Event.deviceStarted]) :=
  (updateDevice_lazy_reopen demoState true).2 (Or.inl rfl)

/-- Claim C9, counterexample to the claim as stated.  When the most recent
enumeration is empty, every index (here 0) is out of range, yet
`selectDevice` does not record "the descriptor at index 0" as the desired
identity — no such descriptor exists and the stale desired identity 7 is
left in place (the call only logs a warning and returns). -/
theorem selectDevice_empty_enumeration_cex :
    staleSelectionState.m_lastDevicesList.length ≤ 0
    ∧ (selectDevice staleSelectionState 0).1.m_selectedDeviceID = 7
    ∧ ¬∃ d, staleSelectionState.m_lastDevicesList.head? = some d
        ∧ (selectDevice staleSelectionState 0).1.m_selectedDeviceID = d.id := by
  refine ⟨by decide, rfl, ?_⟩
  rintro ⟨d, hd, h2⟩
  simp [staleSelectionState] at hd

/-- Claim C9 (amended).  Provided the most recent enumeration is non-empty,
an out-of-range index makes `selectDevice` log a warning, fall back to
index 0 and record that descriptor's identity as desired; the call never
fails (it is total and returns normally) and opens no device (only
`m_selectedDeviceID` changes, `m_device` and the current-device fields are
untouched, and no device events are emitted).  When the enumeration is
empty, the call logs a warning and leaves the state unchanged. -/
theorem selectDevice_out_of_range (s : AudioState) (deviceIndex : Nat) :
    (s.m_lastDevicesList = [] →
      selectDevice s deviceIndex = (s, [Event.logWarn]))
    ∧ (s.m_lastDevicesList ≠ [] →
      s.m_lastDevicesList.length ≤ deviceIndex →
      selectDevice s deviceIndex
        = ({ s with
              m_selectedDeviceID := (s.m_lastDevicesList.getD 0 ⟨0, "", false⟩).id },
            [Event.logWarn])) := by
  constructor
  · intro h
    simp [selectDevice, h]
  · intro h1 h2
    have he : s.m_lastDevicesList.isEmpty = false := by
      simpa [List.isEmpty_iff] using h1
    simp [selectDevice, he, h2]

/-- Claim C9, witness: index 7 against a two-device enumeration falls back
to the descriptor at index 0 (identity 5) with a warning. -/
theorem selectDevice_out_of_range_witness :
    selectDevice twoDeviceState 7
      = ({ twoDeviceState with m_selectedDeviceID := 5 }, [Event.logWarn]) :=
  (selectDevice_out_of_range twoDeviceState 7).2 (by decide) (by decide)

/-- Claim C4, counterexample to the claim as stated.  The source sorts with
`std::sort`, whose contract (`getDevicesListRel`) only promises a
permutation that is sorted for the comparator; it does not promise
stability.  For two non-default devices, the reversed output satisfies the
`std::sort` contract while violating the stable order the claim asserts. -/
theorem getDevicesList_not_stable_cex :
    getDevicesListRel [⟨1, "a", false⟩, ⟨2, "b", false⟩]
      [⟨2, "b", false⟩, ⟨1, "a", false⟩]
    ∧ [(⟨2, "b", false⟩ : DeviceInfo), ⟨1, "a", false⟩]
        ≠ stableDefaultFirst [⟨1, "a", false⟩, ⟨2, "b", false⟩] := by
  constructor
  · exact ⟨List.Perm.swap (⟨1, "a", false⟩ : DeviceInfo) ⟨2, "b", false⟩ [], by decide⟩
  · decide

/-- Claim C4 (amended).  Any output satisfying the `std::sort` contract of
`getDevicesList` is a permutation of the backend enumeration in which the
default device sorts first: whenever a default device was enumerated, the
head of the returned sequence is a default device.  The relative order of
devices with equal is-default flags is not specified (`std::sort` is not
stable). -/
theorem getDevicesList_default_first (input output : List DeviceInfo)
    (h : getDevicesListRel input output)
    (hd : ∃ d ∈ input, d.isDefault = true) :
    output.Perm input
    ∧ ∃ d rest, output = d :: rest ∧ d.isDefault = true := by
  obtain ⟨hperm, hpair⟩ := h
  obtain ⟨d, hdmem, hddef⟩ := hd
  refine ⟨hperm, ?_⟩
  have hmem : d ∈ output := hperm.mem_iff.mpr hdmem
  cases houtput : output with
  | nil =>
    rw [houtput] at hmem
    simp at hmem
  | cons d0 rest =>
    refine ⟨d0, rest, rfl, ?_⟩
    rw [houtput] at hmem hpair
    rcases List.mem_cons.mp hmem with h1 | h1
    · rw [h1] at hddef
      exact hddef
    · have hcmp : devCmp d d0 = false :=
        (List.pairwise_cons.mp hpair).1 d h1
      cases hd0 : d0.isDefault with
      | true => rfl
      | false =>
        rw [devCmp, hddef, hd0] at hcmp
        simp at hcmp

/-- Claim C4, witness: a sorted output for an enumeration whose second
device is the default begins with that default device. -/
theorem getDevicesList_default_first_witness :
    ([(⟨6, "right", true⟩ : DeviceInfo), ⟨5, "left", false⟩].Perm
        [⟨5, "left", false⟩, ⟨6, "right", true⟩])
    ∧ ∃ d rest, [(⟨6, "right", true⟩ : DeviceInfo), ⟨5, "left", false⟩]
        = d :: rest ∧ d.isDefault = true :=
  getDevicesList_default_first [⟨5, "left", false⟩, ⟨6, "right", true⟩]
    [⟨6, "right", true⟩, ⟨5, "left", false⟩]
    ⟨List.Perm.swap (⟨5, "left", false⟩ : DeviceInfo) ⟨6, "right", true⟩ [], by decide⟩
    ⟨⟨6, "right", true⟩, by decide, rfl⟩

/-- Claim C2, witness: a valid mono 16-bit request whose
`ma_sound_init_from_data_source` fails aborts with failure after a critical
log, an audio-buffer uninit and a payload delete, registering nothing. -/
theorem playAudioData_construction_failure_witness :
    (playAudioData demoState { demoEnv with soundInitOk := false } 1 48000 16 2
        (some [1, 2])).result = Except.ok false
    ∧ (playAudioData demoState { demoEnv with soundInitOk := false } 1 48000 16 2
        (some [1, 2])).state.sounds = (freeSounds true demoState.sounds).1
    ∧ ∃ pre, (playAudioData demoState { demoEnv with soundInitOk := false }
        1 48000 16 2 (some [1, 2])).trace
        = pre ++ [Event.logCritical, Event.audioBufferUninit, Event.deletePayload] :=
  (playAudioData_construction_failure demoState
      { demoEnv with soundInitOk := false } 1 48000 16 2 [1, 2]
      [⟨0, "default", true⟩] 1 1 (by decide) (by decide) (by decide) (by decide)
      (by decide) rfl rfl rfl rfl rfl rfl rfl (by decide)).2 rfl rfl

/-- Claim C8, witness: two bytes of mono 16-bit PCM already at 48000 Hz are
registered unchanged as one frame with no resampler call in the trace. -/
theorem playAudioData_working_rate_bypasses_resampler_witness :
    (playAudioData demoState demoEnv 1 48000 16 2 (some [1, 2])).result
        = Except.ok true
    ∧ (playAudioData demoState demoEnv 1 48000 16 2 (some [1, 2])).state.sounds
        = (freeSounds true demoState.sounds).1
            ++ [⟨[1, 2].take 2, (2 * 8) / ((1 : Int).toNat * (16 : Int).toNat), false⟩]
    ∧ countResample (playAudioData demoState demoEnv 1 48000 16 2
        (some [1, 2])).trace = 0 :=
  playAudioData_working_rate_bypasses_resampler demoState demoEnv 1 16 2 [1, 2]
    [⟨0, "default", true⟩] 1 (by decide) (by decide) (by decide) (by decide)
    rfl rfl rfl rfl rfl rfl rfl (by decide)
